import Mathlib

/-!
Formal model of the longitudinal statistics core of the
SNIRP-HPC-FreeSurfer pipeline (src/bin/longitudinal_stats.py), a shallow
embedding in Lean 4.

Modelling conventions:
* Python strings are modelled as `List Char` (their character sequences),
  restricted to ASCII where Python's `str.isdigit` and `int()` agree with
  the ASCII notions used here.
* Python floats are modelled as exact rationals; the float values
  `None`/`NaN` occurring in a dataframe column are both rendered as
  `Option.none` (pandas stores `None` as `NaN` in a float column, and the
  code treats them identically through `np.isnan` / `pd.notna`).
* A Python function that may raise is modelled in the `Except` monad; the
  concrete `ValueError`s raised by `scipy.stats.linregress` are modelled
  by the enumeration `RegError` (the message text is presentation only).
* `scipy.stats.linregress` (modern scipy, >= 1.2) raises `ValueError`
  when all x values are identical and `len(x) > 1`; with `NaN` among the
  x values that comparison is false and every derived statistic becomes
  `NaN`.  Its transcendental tail (the Student-t two-sided p-value for
  n > 2 and the slope standard error for n > 2, both irrational in
  general) is abstracted by the explicit parameter record `RegFns`; no
  claim below depends on those values.
* `pandas.DataFrame.sort_values` on the small per-subject groups handled
  here resolves to numpy's insertion sort (stable), and the spec mandates
  a stable sort; the embedding uses the stable `List.insertionSort` with
  `NaN` ordinals placed last (`na_position='last'`).
* `pandas.groupby` emits groups keyed by the exact tuple, each group
  holding its rows in original dataframe order; real pandas enumerates
  the groups in sorted-key order, the embedding enumerates them in
  first-appearance order.  Every property stated below is insensitive to
  the enumeration order of the groups.
-/

/-! ## Identity Resolver: parse_timepoint_info -/

/-- Python's leftmost-match split: returns the text before the first
occurrence of `sep` and the text after it, or `none` when `sep` (always
nonempty in this file) does not occur. -/
def splitFirst (sep : List Char) : List Char → Option (List Char × List Char)
  | [] => none
  | c :: rest =>
    if (c :: rest).take sep.length = sep then some ([], (c :: rest).drop sep.length)
    else (splitFirst sep rest).map (fun p => (c :: p.1, p.2))

/-- Given the text after the first occurrence of `sep`, the portion up to
the next occurrence of `sep` (or everything, if `sep` does not occur
again).  Together with `splitFirst` this yields exactly the elements
`parts[0]` and `parts[1]` of Python's `s.split(sep)`. -/
def segAfter (sep tail : List Char) : List Char :=
  match splitFirst sep tail with
  | none => tail
  | some p => p.1

/-- The session marker the source tests with `'_ses-' in subject_id`. -/
def sesMarker : List Char := ['_', 's', 'e', 's', '-']

/-- The timepoint marker the source tests with `'_tp' in subject_id`. -/
def tpMarker : List Char := ['_', 't', 'p']

/-- Value of a decimal digit string obtained by keeping only the digit
characters, as in `int(''.join(filter(str.isdigit, s)))`. -/
def digitsMag (l : List Char) : ℤ :=
  (l.filter Char.isDigit).foldl (fun a c => 10 * a + ((c.toNat - 48 : ℕ) : ℤ)) 0

/-- Models `int(''.join(filter(str.isdigit, s)))` wrapped in
`try/except ValueError`: with no digit characters `int('')` raises and the
code stores `None`. -/
def digitsVal (l : List Char) : Option ℤ :=
  if (l.filter Char.isDigit).isEmpty then none else some (digitsMag l)

/-- ASCII whitespace stripped by Python's `int()`. -/
def isPyWhitespace (c : Char) : Bool :=
  c = ' ' || c = '\t' || c = '\n' || c = '\r' || c = '\x0b' || c = '\x0c'

/-- Tail of the digit grammar accepted by `int()`: digits with single
underscores allowed only between two digits. -/
def digitsTail : List Char → Bool
  | [] => true
  | '_' :: c :: rest => c.isDigit && digitsTail rest
  | ['_'] => false
  | c :: rest => c.isDigit && digitsTail rest

/-- Nonempty digit body `digit ( _? digit )*` accepted by `int()`. -/
def digitsBody : List Char → Bool
  | [] => false
  | c :: rest => c.isDigit && digitsTail rest

/-- Unsigned-part parser of Python `int(str)`: after stripping
whitespace, an optional sign followed by a digit body. -/
def pyIntCore (l : List Char) : Option ℤ :=
  match l with
  | '+' :: rest => if digitsBody rest then some (digitsMag rest) else none
  | '-' :: rest => if digitsBody rest then some (-(digitsMag rest)) else none
  | _ => if digitsBody l then some (digitsMag l) else none

/-- Models Python `int(s)` wrapped in `try/except ValueError`, returning
`none` when `int` would raise. -/
def pythonInt (l : List Char) : Option ℤ :=
  pyIntCore ((l.dropWhile isPyWhitespace).reverse.dropWhile isPyWhitespace |>.reverse)

/-- Decimal rendering of an integer, as produced by Python's
`str`/f-string formatting of an `int`. -/
def intDigits (n : ℤ) : List Char :=
  if n < 0 then '-' :: Nat.toDigits 10 (-n).toNat else Nat.toDigits 10 n.toNat

/-- Embedding of `parse_timepoint_info` (src/bin/longitudinal_stats.py,
lines 26-62).  Returns `(base_id, session_id, tp_num)`. -/
def parse_timepoint_info (subject_id : List Char) :
    List Char × Option (List Char) × Option ℤ :=
  match splitFirst sesMarker subject_id with
  | some p =>
    -- parts = subject_id.split('_ses-'); base_id = parts[0];
    -- session_id = f"ses-{parts[1]}"; tp_num from the digits of parts[1]
    let part1 := segAfter sesMarker p.2
    (p.1, some ('s' :: 'e' :: 's' :: '-' :: part1), digitsVal part1)
  | none =>
    match splitFirst tpMarker subject_id with
    | some p =>
      -- parts = subject_id.split('_tp'); base_id = parts[0];
      -- tp_num = int(parts[1]) with the two except branches
      let part1 := segAfter tpMarker p.2
      match pythonInt part1 with
      | some n => (p.1, some ('t' :: 'p' :: intDigits n), some n)
      | none => (p.1, some ('t' :: 'p' :: part1), none)
    | none => (subject_id, none, none)

/-! ## Data model for the two statistics passes -/

/-- The two values the `measure_type` dataframe column takes
(`'volume'` / `'thickness'`). -/
inductive MeasureType where
  | volume : MeasureType
  | thickness : MeasureType
deriving DecidableEq

/-- One row of the measurement dataframe assembled by
`load_longitudinal_stats` and consumed by `calculate_slopes` and
`calculate_percent_change`. -/
structure Row where
  base_subject : List Char
  timepoint_id : List Char
  session : Option (List Char)
  timepoint_num : Option ℤ
  measure_type : MeasureType
  structure' : List Char
  value : Option ℚ
deriving DecidableEq

/-- One output row of `calculate_slopes` (a TrendResult). -/
structure TrendRow where
  base_subject : List Char
  measure_type : MeasureType
  structure' : List Char
  n_timepoints : ℕ
  baseline_value : ℚ
  final_value : ℚ
  slope : Option ℚ
  intercept : Option ℚ
  r_squared : Option ℚ
  p_value : Option ℚ
  std_error : Option ℚ
  absolute_change : ℚ
  percent_change : Option ℚ
  timepoint_span : Option ℤ
deriving DecidableEq

/-- One output row of `calculate_percent_change` (a DeltaResult). -/
structure DeltaRow where
  base_subject : List Char
  measure_type : MeasureType
  structure' : List Char
  timepoint_from : List Char
  timepoint_to : List Char
  tp_num_from : Option ℤ
  tp_num_to : Option ℤ
  value_from : ℚ
  value_to : ℚ
  absolute_change : ℚ
  percent_change : ℚ
deriving DecidableEq

/-- The `ValueError`s that `scipy.stats.linregress` can raise:
`emptyInput` for "Inputs must not be empty." and `identicalX` for
"Cannot calculate a linear regression if all x values are identical". -/
inductive RegError where
  | emptyInput : RegError
  | identicalX : RegError
deriving DecidableEq

/-- The transcendental tail of `scipy.stats.linregress`, abstracted:
`pAux df ssxym ssxm ssym` stands for the two-sided Student-t p-value and
`seAux df ssxym ssxm ssym` for the slope standard error, both in the
case n > 2 with no NaN among the x values (their exact real values are
irrational in general and no claim depends on them). -/
structure RegFns where
  pAux : ℕ → ℚ → ℚ → ℚ → ℚ
  seAux : ℕ → ℚ → ℚ → ℚ → ℚ

/-- The quintuple returned by `scipy.stats.linregress`; `none` models a
`NaN` component. -/
structure LinRes where
  slope : Option ℚ
  intercept : Option ℚ
  r_squared : Option ℚ
  p_value : Option ℚ
  std_err : Option ℚ
deriving DecidableEq

/-- Arithmetic mean of a list of rationals, `np.mean`. -/
def qmean (l : List ℚ) : ℚ := l.sum / l.length

/-- All elements equal (used for numpy's `amax(x) == amin(x)`; with a
`NaN` among the x values that comparison is false, which the caller
accounts for by requiring `xs.all isSome`). -/
def allEqualOpt (xs : List (Option ℤ)) : Bool :=
  match xs with
  | [] => true
  | a :: t => t.all (· == a)

/-- Embedding of `scipy.stats.linregress(x, y)` (modern scipy) as used by
`calculate_slopes`: raises on empty input and on all-identical x values;
with a NaN among the x values (or a single point, where 0/0 arises) the
statistics are NaN; for n = 2 the p-value is 1 or 0 according to
y[0] == y[1] and the standard error is 0; `r_squared` is the square of
scipy's r, which equals `ssxym^2 / (ssxm * ssym)` in exact arithmetic
(scipy's clamp of r into [-1, 1] is a no-op exactly, by Cauchy-Schwarz),
with r = 0 by convention when `ssym = 0`. -/
def linregress (fns : RegFns) (xs : List (Option ℤ)) (ys : List ℚ) :
    Except RegError LinRes :=
  if xs.length = 0 ∨ ys.length = 0 then .error .emptyInput
  else if xs.all (·.isSome) && allEqualOpt xs && decide (1 < xs.length) then
    .error .identicalX
  else
    let n := xs.length
    let degenerate := xs.any (·.isNone) || n == 1
    let xq : List ℚ := xs.filterMap (fun o => o.map (fun z => (z : ℚ)))
    let xm := qmean xq
    let ym := qmean ys
    let ssxm := qmean (xq.map (fun x => (x - xm) ^ 2))
    let ssym := qmean (ys.map (fun y => (y - ym) ^ 2))
    let ssxym := qmean (List.zipWith (fun x y => (x - xm) * (y - ym)) xq ys)
    .ok
    { slope := if degenerate then none else some (ssxym / ssxm)
      intercept := if degenerate then none else some (ym - ssxym / ssxm * xm)
      r_squared :=
        if degenerate then none
        else if ssym = 0 then some 0
        else some (ssxym ^ 2 / (ssxm * ssym))
      p_value :=
        if n = 2 then some (if ys.headD 0 = ys.getLastD 0 then 1 else 0)
        else if degenerate then none
        else some (fns.pAux (n - 2) ssxym ssxm ssym)
      std_err :=
        if n = 2 then some 0
        else if degenerate then none
        else some (fns.seAux (n - 2) ssxym ssxm ssym) : LinRes }

/-! ## Sorting and grouping -/

/-- Comparison used by `sort_values('timepoint_num')` with pandas'
default `na_position='last'`: NaN ordinals sort after every number. -/
def naLastLe (a b : Option ℤ) : Bool :=
  match a, b with
  | none, none => true
  | none, some _ => false
  | some _, none => true
  | some x, some y => x ≤ y

/-- Row comparison by timepoint ordinal (NaN last). -/
def rowLe (a b : Row) : Prop := naLastLe a.timepoint_num b.timepoint_num = true

instance : DecidableRel rowLe := fun a b =>
  inferInstanceAs (Decidable (naLastLe a.timepoint_num b.timepoint_num = true))

instance : IsTotal Row rowLe := by
  constructor
  intro a b
  unfold rowLe naLastLe
  rcases a.timepoint_num with _ | x <;> rcases b.timepoint_num with _ | y <;> simp <;> omega

instance : IsTrans Row rowLe := by
  constructor
  intro a b c
  unfold rowLe naLastLe
  rcases a.timepoint_num with _ | x <;> rcases b.timepoint_num with _ | y <;>
    rcases c.timepoint_num with _ | z <;> simp <;> omega

/-- Embedding of `group.sort_values('timepoint_num')` (stable, NaN
ordinals last). -/
def sortByOrdinal (g : List Row) : List Row := List.insertionSort rowLe g

/-- The grouping key of `df.groupby(['base_subject', 'measure_type',
'structure'])`. -/
def rowKey (r : Row) : List Char × MeasureType × List Char :=
  (r.base_subject, r.measure_type, r.structure')

/-- The distinct group keys of a dataframe (real pandas enumerates them
in sorted order; first-appearance order is used here, all stated
properties being insensitive to group enumeration order). -/
def dfKeys (df : List Row) : List (List Char × MeasureType × List Char) :=
  (df.map rowKey).dedup

/-- The rows of one group, in original dataframe order. -/
def groupOf (df : List Row) (k : List Char × MeasureType × List Char) : List Row :=
  df.filter (fun r => rowKey r == k)

/-! ## Trend Estimator: calculate_slopes -/

/-- The `group = group.sort_values(...)` followed by the value mask of
`calculate_slopes` (lines 209-218): rows surviving the mask, in sorted
order.  The mask tests only the values, so NaN ordinals are NOT
dropped. -/
def maskedOf (g : List Row) : List Row :=
  (sortByOrdinal g).filter (fun r => r.value.isSome)

/-- The `timepoints` array after masking (may contain NaN ordinals). -/
def tpsOf (g : List Row) : List (Option ℤ) :=
  (maskedOf g).map (fun r => r.timepoint_num)

/-- The `values` array after masking (all entries non-NaN). -/
def valsOf (g : List Row) : List ℚ :=
  (maskedOf g).filterMap (fun r => r.value)

/-- The output-row dictionary appended by `calculate_slopes`
(lines 234-249), given the group's regression result. -/
def trendRowOf (k : List Char × MeasureType × List Char) (g : List Row)
    (lr : LinRes) : TrendRow :=
  { base_subject := k.1
    measure_type := k.2.1
    structure' := k.2.2
    n_timepoints := (tpsOf g).length
    baseline_value := (valsOf g).headD 0
    final_value := (valsOf g).getLastD 0
    slope := lr.slope
    intercept := lr.intercept
    r_squared := lr.r_squared
    p_value := lr.p_value
    std_error := lr.std_err
    absolute_change := (valsOf g).getLastD 0 - (valsOf g).headD 0
    percent_change :=
      if (valsOf g).headD 0 ≠ 0 then
        some (((valsOf g).getLastD 0 - (valsOf g).headD 0) / (valsOf g).headD 0 * 100)
      else none
    timepoint_span :=
      match (tpsOf g).getLastD none, (tpsOf g).headD none with
      | some a, some b => some (a - b)
      | _, _ => none }

/-- Body of the per-group loop of `calculate_slopes` (lines 203-249):
skip groups of fewer than 2 rows, sort by ordinal, drop rows whose value
is NaN, skip if fewer than 2 rows remain, run `linregress` on the
surviving (ordinal, value) columns and assemble the output row.
Returns `ok none` for a skipped group, `error` when `linregress`
raises. -/
def slopeRowOfGroup (fns : RegFns) (k : List Char × MeasureType × List Char)
    (g : List Row) : Except RegError (Option TrendRow) :=
  if g.length < 2 then .ok none
  else if (valsOf g).length < 2 then .ok none
  else
    match linregress fns (tpsOf g) (valsOf g) with
    | .error e => .error e
    | .ok lr => .ok (some (trendRowOf k g lr))

/-- Sequential effectful map in `Except`, modelling the Python loop over
groups in which an uncaught exception aborts the whole call. -/
def mapExcept (f : α → Except ε β) : List α → Except ε (List β)
  | [] => .ok []
  | a :: t =>
    match f a with
    | .error e => .error e
    | .ok b =>
      match mapExcept f t with
      | .error e => .error e
      | .ok bs => .ok (b :: bs)

/-- Embedding of `calculate_slopes(df)` (lines 188-254): one optional
output row per group, exceptions propagating. -/
def calculate_slopes (fns : RegFns) (df : List Row) : Except RegError (List TrendRow) :=
  Except.map List.reduceOption
    (mapExcept (fun k => slopeRowOfGroup fns k (groupOf df k)) (dfKeys df))

/-! ## Delta Calculator: calculate_percent_change -/

/-- Body of the per-pair conditional of `calculate_percent_change`
(lines 281-300): a row is emitted only when both endpoint values are
non-NaN and the from-value is nonzero. -/
def deltaRowOfPair (k : List Char × MeasureType × List Char) (r1 r2 : Row) :
    Option DeltaRow :=
  match r1.value, r2.value with
  | some v1, some v2 =>
    if v1 ≠ 0 then
      some
        { base_subject := k.1
          measure_type := k.2.1
          structure' := k.2.2
          timepoint_from := r1.timepoint_id
          timepoint_to := r2.timepoint_id
          tp_num_from := r1.timepoint_num
          tp_num_to := r2.timepoint_num
          value_from := v1
          value_to := v2
          absolute_change := v2 - v1
          percent_change := (v2 - v1) / v1 * 100 }
    else none
  | _, _ => none

/-- Per-group body of `calculate_percent_change` (lines 272-300): sort
by ordinal, then one candidate row per adjacent pair. -/
def deltaRowsOfGroup (k : List Char × MeasureType × List Char) (g : List Row) :
    List DeltaRow :=
  let sorted := sortByOrdinal g
  (sorted.zip sorted.tail).filterMap (fun p => deltaRowOfPair k p.1 p.2)

/-- Embedding of `calculate_percent_change(df)` (lines 257-305). -/
def calculate_percent_change (df : List Row) : List DeltaRow :=
  (dfKeys df).flatMap (fun k => deltaRowsOfGroup k (groupOf df k))

/-! ## Spec-side definitions used to compare against the code -/

/-- Modelled from the spec claim wording: the number of points of a group
that have BOTH a non-null, non-NaN value and a non-null ordinal (the
count the spec says `n_timepoints` equals). -/
def bothValidCount (df : List Row) (k : List Char × MeasureType × List Char) : ℕ :=
  ((groupOf df k).filter (fun r => r.value.isSome && r.timepoint_num.isSome)).length

/-- All timepoint ordinals within each group are pairwise distinct (as
column entries: at most one NaN).  This is the side condition under which
input-order independence holds. -/
def distinctOrdinals (df : List Row) : Prop :=
  ∀ k ∈ dfKeys df, ((groupOf df k).map (fun r => r.timepoint_num)).Nodup

instance (df : List Row) : Decidable (distinctOrdinals df) := by
  unfold distinctOrdinals
  infer_instance

/-! ## Concrete inputs used by witnesses and counterexamples -/

/-- A trivial instantiation of the abstracted transcendental functions,
used only to evaluate the pipeline at concrete inputs (no claim depends
on the values these functions produce). -/
def fns0 : RegFns := ⟨fun _ _ _ _ => 0, fun _ _ _ _ => 0⟩

/-- Convenience constructor for rows of one fixed group
(subject "s", volume, structure "h"). -/
def mkRow (tid : List Char) (tn : Option ℤ) (v : Option ℚ) : Row :=
  { base_subject := ['s'], timepoint_id := tid, session := none,
    timepoint_num := tn, measure_type := .volume, structure' := ['h'], value := v }

/-- Group with two surviving points sharing the ordinal 1 (zero variance
in time). -/
def dfIdenticalOrds : List Row :=
  [mkRow ['a'] (some 1) (some 10), mkRow ['b'] (some 1) (some 20)]

/-- Group with valid points at ordinals 1 and 2 plus a point with a null
ordinal and a valid value. -/
def dfNullOrd : List Row :=
  [mkRow ['a'] (some 1) (some 10), mkRow ['b'] (some 2) (some 20),
   mkRow ['c'] none (some 30)]

/-- Two rows with the duplicate ordinal 1 and distinct values. -/
def dfDupA : List Row :=
  [mkRow ['a'] (some 1) (some 10), mkRow ['b'] (some 1) (some 20)]

/-- The same two rows in the opposite input order. -/
def dfDupB : List Row :=
  [mkRow ['b'] (some 1) (some 20), mkRow ['a'] (some 1) (some 10)]

/-- Adjacent pair whose from-value is exactly zero. -/
def dfZeroFrom : List Row :=
  [mkRow ['a'] (some 1) (some 0), mkRow ['b'] (some 2) (some 5)]

/-- Group at ordinals [1,2,3] with values [10,20,15]. -/
def dfDeltas : List Row :=
  [mkRow ['a'] (some 1) (some 10), mkRow ['b'] (some 2) (some 20),
   mkRow ['c'] (some 3) (some 15)]

/-- Distinct-ordinal permutation pair used by the determinism witness. -/
def dfPermA : List Row :=
  [mkRow ['a'] (some 1) (some 10), mkRow ['b'] (some 2) (some 20)]

/-- The same rows in the opposite input order. -/
def dfPermB : List Row :=
  [mkRow ['b'] (some 2) (some 20), mkRow ['a'] (some 1) (some 10)]

/-- Group with two surviving points sharing one ordinal whose baseline
value is zero. -/
def dfZeroBaselineDup : List Row :=
  [mkRow ['a'] (some 1) (some 0), mkRow ['b'] (some 1) (some 5)]

/-- The TrendResult that `calculate_slopes` emits for `dfNullOrd`. -/
def trendRowNullOrd : TrendRow :=
  { base_subject := ['s'], measure_type := .volume, structure' := ['h'],
    n_timepoints := 3, baseline_value := 10, final_value := 30,
    slope := none, intercept := none, r_squared := none, p_value := none,
    std_error := none, absolute_change := 20, percent_change := some 200,
    timepoint_span := none }

/-- The TrendResult that `calculate_slopes` emits for `dfZeroFrom`. -/
def trendRowZeroFrom : TrendRow :=
  { base_subject := ['s'], measure_type := .volume, structure' := ['h'],
    n_timepoints := 2, baseline_value := 0, final_value := 5,
    slope := some 5, intercept := some (-5), r_squared := some 1,
    p_value := some 0, std_error := some 0,
    absolute_change := 5, percent_change := none, timepoint_span := some 1 }

/-- The first DeltaResult that `calculate_percent_change` emits for
`dfDeltas` (pair 1 to 2). -/
def deltaRow12 : DeltaRow :=
  { base_subject := ['s'], measure_type := .volume, structure' := ['h'],
    timepoint_from := ['a'], timepoint_to := ['b'], tp_num_from := some 1,
    tp_num_to := some 2, value_from := 10, value_to := 20,
    absolute_change := 10, percent_change := 100 }

/-- The second DeltaResult that `calculate_percent_change` emits for
`dfDeltas` (pair 2 to 3). -/
def deltaRow23 : DeltaRow :=
  { base_subject := ['s'], measure_type := .volume, structure' := ['h'],
    timepoint_from := ['b'], timepoint_to := ['c'], tp_num_from := some 2,
    tp_num_to := some 3, value_from := 20, value_to := 15,
    absolute_change := -5, percent_change := -25 }

/-- Two valid points with distinct ordinals and EQUAL values. -/
def dfFlat : List Row :=
  [mkRow ['a'] (some 1) (some 5), mkRow ['b'] (some 2) (some 5)]

/-! ## Claims about the Identity Resolver -/

/-- Claim C5, counterexample: the raw id "ses-01" contains the substring
"ses-" that the claim designates as the session marker, yet the resolver
returns ("ses-01", null, null) — the code's marker test is for "_ses-",
underscore included — and not the ("", "ses-01", 1) the claim's splitting
rule prescribes. -/
theorem c5_session_rule_counterexample :
    parse_timepoint_info ['s', 'e', 's', '-', '0', '1'] =
      (['s', 'e', 's', '-', '0', '1'], none, none)
    ∧ parse_timepoint_info ['s', 'e', 's', '-', '0', '1'] ≠
      ([], some ['s', 'e', 's', '-', '0', '1'], some 1) := by
  decide

/-- Claim C5 as amended: for every raw id containing the marker "_ses-"
(underscore included, the marker the code tests for), the resolver
returns the text before the FIRST occurrence of "_ses-" as base_subject,
the segment between that occurrence and the next one (or the end) with
"ses-" re-prefixed as timepoint_label (Python's split severs at every
occurrence and the code reads parts[1]), and as timepoint_ordinal the
integer formed by the digit characters of that same segment, null when
the segment has no digits; this branch takes priority over the "_tp"
rule. -/
theorem c5_session_rule_amended (subject_id : List Char)
    (p : List Char × List Char)
    (h : splitFirst sesMarker subject_id = some p) :
    parse_timepoint_info subject_id =
      (p.1, some ('s' :: 'e' :: 's' :: '-' :: segAfter sesMarker p.2),
        digitsVal (segAfter sesMarker p.2)) := by
  simp [parse_timepoint_info, h]

/-- Witness for the amended claim C5 at the spec's own example
"sub-001_ses-02". -/
theorem c5_session_rule_witness :
    parse_timepoint_info
        ['s', 'u', 'b', '-', '0', '0', '1', '_', 's', 'e', 's', '-', '0', '2'] =
      (['s', 'u', 'b', '-', '0', '0', '1'], some ['s', 'e', 's', '-', '0', '2'],
        some 2) :=
  (c5_session_rule_amended
    ['s', 'u', 'b', '-', '0', '0', '1', '_', 's', 'e', 's', '-', '0', '2']
    (['s', 'u', 'b', '-', '0', '0', '1'], ['0', '2']) (by decide)).trans (by decide)

/-- Claim C6, counterexample: "sub-007_tp03" parses the remainder "03"
successfully as the integer 3, but the label the code builds is
f-string "tp" + str(3) = "tp3", not "tp" + remainder verbatim = "tp03"
as the claim states. -/
theorem c6_tp_rule_counterexample :
    parse_timepoint_info ['s', 'u', 'b', '-', '0', '0', '7', '_', 't', 'p', '0', '3'] =
      (['s', 'u', 'b', '-', '0', '0', '7'], some ['t', 'p', '3'], some 3)
    ∧ parse_timepoint_info ['s', 'u', 'b', '-', '0', '0', '7', '_', 't', 'p', '0', '3'] ≠
      (['s', 'u', 'b', '-', '0', '0', '7'], some ['t', 'p', '0', '3'], some 3) := by
  decide

/-- Claim C6 as amended: for a raw id containing "_tp" but not "_ses-",
the resolver splits at every occurrence of "_tp" and reads parts[0] and
parts[1]: base_subject is the text before the first "_tp", the remainder
is the segment up to the next "_tp" (or the end), and Python int() is
attempted on it — on success the ordinal is that integer and the label is
"tp" followed by the CANONICAL decimal rendering of that integer (not the
remainder verbatim); on failure the ordinal is null and the label is "tp"
followed by the remainder verbatim. -/
theorem c6_tp_rule_amended (subject_id : List Char) (p : List Char × List Char)
    (h1 : splitFirst sesMarker subject_id = none)
    (h2 : splitFirst tpMarker subject_id = some p) :
    parse_timepoint_info subject_id =
      (p.1,
        some ('t' :: 'p' ::
          (match pythonInt (segAfter tpMarker p.2) with
            | some n => intDigits n
            | none => segAfter tpMarker p.2)),
        pythonInt (segAfter tpMarker p.2)) := by
  simp only [parse_timepoint_info, h1, h2]
  cases pythonInt (segAfter tpMarker p.2) <;> simp

/-- Witness for the amended claim C6 at the spec's own example
"sub-007_tp3". -/
theorem c6_tp_rule_witness :
    parse_timepoint_info ['s', 'u', 'b', '-', '0', '0', '7', '_', 't', 'p', '3'] =
      (['s', 'u', 'b', '-', '0', '0', '7'], some ['t', 'p', '3'], some 3) :=
  (c6_tp_rule_amended ['s', 'u', 'b', '-', '0', '0', '7', '_', 't', 'p', '3']
    (['s', 'u', 'b', '-', '0', '0', '7'], ['3']) (by decide) (by decide)).trans
    (by decide)

/-- Claim C10: the resolver is total — on any input it returns a triple
without raising: with neither marker it returns (raw_id, null, null); in
the session branch, absence of digit characters in parts[1] degrades the
ordinal to null (the caught int('') ValueError); in the timepoint branch,
a remainder rejected by int() degrades the ordinal to null (the caught
ValueError). -/
theorem c10_resolver_total (subject_id : List Char) :
    (splitFirst sesMarker subject_id = none → splitFirst tpMarker subject_id = none →
      parse_timepoint_info subject_id = (subject_id, none, none))
    ∧ (∀ p, splitFirst sesMarker subject_id = some p →
        (segAfter sesMarker p.2).filter Char.isDigit = [] →
        (parse_timepoint_info subject_id).2.2 = none)
    ∧ (∀ p, splitFirst sesMarker subject_id = none →
        splitFirst tpMarker subject_id = some p →
        pythonInt (segAfter tpMarker p.2) = none →
        (parse_timepoint_info subject_id).2.2 = none) := by
  refine ⟨fun h1 h2 => by simp [parse_timepoint_info, h1, h2],
    fun p hp hdig => ?_, fun p h1 hp hint => ?_⟩
  · simp [parse_timepoint_info, hp, digitsVal, hdig]
  · simp [parse_timepoint_info, h1, hp, hint]

/-- Witness for claim C10: the three degradation branches at the
concrete ids "sub-099", "a_ses-x" and "a_tpx". -/
theorem c10_resolver_total_witness :
    parse_timepoint_info ['s', 'u', 'b', '-', '0', '9', '9'] =
      (['s', 'u', 'b', '-', '0', '9', '9'], none, none)
    ∧ (parse_timepoint_info ['a', '_', 's', 'e', 's', '-', 'x']).2.2 = none
    ∧ (parse_timepoint_info ['a', '_', 't', 'p', 'x']).2.2 = none :=
  ⟨(c10_resolver_total ['s', 'u', 'b', '-', '0', '9', '9']).1 (by decide) (by decide),
   (c10_resolver_total ['a', '_', 's', 'e', 's', '-', 'x']).2.1 (['a'], ['x'])
     (by decide) (by decide),
   (c10_resolver_total ['a', '_', 't', 'p', 'x']).2.2 (['a'], ['x'])
     (by decide) (by decide) (by decide)⟩

/-! ## Helper lemmas about the slopes pipeline -/

theorem mapExcept_ok_forall {α β ε : Type _} {f : α → Except ε β} :
    ∀ {l : List α} {bs : List β}, mapExcept f l = .ok bs →
      List.Forall₂ (fun a b => f a = .ok b) l bs := by
  intro l
  induction l with
  | nil =>
    intro bs h
    simp only [mapExcept] at h
    cases h
    exact .nil
  | cons a t ih =>
    intro bs h
    simp only [mapExcept] at h
    cases hfa : f a with
    | error e => rw [hfa] at h; cases h
    | ok b =>
      rw [hfa] at h
      cases hrest : mapExcept f t with
      | error e => rw [hrest] at h; cases h
      | ok bs' =>
        rw [hrest] at h
        cases h
        exact .cons hfa (ih hrest)

theorem mapExcept_error_mem {α β ε : Type _} {f : α → Except ε β} :
    ∀ {l : List α} {e : ε}, mapExcept f l = .error e → ∃ a ∈ l, f a = .error e := by
  intro l
  induction l with
  | nil => intro e h; simp [mapExcept] at h
  | cons a t ih =>
    intro e h
    simp only [mapExcept] at h
    cases hfa : f a with
    | error e' =>
      rw [hfa] at h
      cases h
      exact ⟨a, List.mem_cons_self a t, hfa⟩
    | ok b =>
      rw [hfa] at h
      cases hrest : mapExcept f t with
      | error e' =>
        rw [hrest] at h
        cases h
        obtain ⟨x, hx, hfx⟩ := ih hrest
        exact ⟨x, List.mem_cons_of_mem a hx, hfx⟩
      | ok bs => rw [hrest] at h; cases h

theorem mapExcept_eq_map {α β ε : Type _} {f : α → Except ε β} {g : α → β} :
    ∀ {l : List α}, (∀ a ∈ l, f a = .ok (g a)) → mapExcept f l = .ok (l.map g) := by
  intro l
  induction l with
  | nil => intro _; rfl
  | cons a t ih =>
    intro h
    have ha := h a (List.mem_cons_self a t)
    have ht := ih fun x hx => h x (List.mem_cons_of_mem a hx)
    simp only [mapExcept, ha, ht, List.map_cons]

theorem mapExcept_error_of_mem {α β ε : Type _} (f : α → Except ε β) :
    ∀ {l : List α} {a : α}, a ∈ l → (∃ e, f a = .error e) →
      ∃ e, mapExcept f l = .error e := by
  intro l
  induction l with
  | nil => intro a ha; cases ha
  | cons x t ih =>
    intro a ha he
    simp only [mapExcept]
    cases hfx : f x with
    | error e => exact ⟨e, rfl⟩
    | ok b =>
      rcases List.mem_cons.mp ha with rfl | hat
      · obtain ⟨e, he⟩ := he
        rw [hfx] at he
        cases he
      · obtain ⟨e, he⟩ := ih hat he
        rw [he]
        exact ⟨e, rfl⟩

theorem forall₂_mem_right {α β : Type _} {R : α → β → Prop} :
    ∀ {l1 : List α} {l2 : List β}, List.Forall₂ R l1 l2 → ∀ {b}, b ∈ l2 →
      ∃ a ∈ l1, R a b := by
  intro l1 l2 h
  induction h with
  | nil => intro b hb; cases hb
  | cons hab _ ih =>
    intro b hb
    rcases List.mem_cons.mp hb with rfl | hb'
    · exact ⟨_, List.mem_cons_self _ _, hab⟩
    · obtain ⟨a, ha, hr⟩ := ih hb'
      exact ⟨a, List.mem_cons_of_mem _ ha, hr⟩

/-- The only exception `slopeRowOfGroup` can propagate is the
identical-x `ValueError`: the empty-input branch of `linregress` is
unreachable behind the two point-count guards. -/
theorem slopeRowOfGroup_error {fns : RegFns} {k : List Char × MeasureType × List Char}
    {g : List Row} {e : RegError} (h : slopeRowOfGroup fns k g = .error e) :
    e = .identicalX := by
  unfold slopeRowOfGroup at h
  split at h
  · cases h
  · split at h
    · cases h
    · rename_i hg hvlen
      have hle : (valsOf g).length ≤ (tpsOf g).length := by
        unfold valsOf tpsOf
        rw [List.length_map]
        exact List.length_filterMap_le _ _
      cases hlr : linregress fns (tpsOf g) (valsOf g) with
      | error e' =>
        rw [hlr] at h
        cases h
        unfold linregress at hlr
        split at hlr
        · rename_i hemp
          cases hlr
          omega
        · split at hlr
          · cases hlr
            rfl
          · cases hlr
      | ok lr =>
        rw [hlr] at h
        cases h

/-- Decomposition: every row of a successful `calculate_slopes` run comes
from one group of the dataframe. -/
theorem calculate_slopes_mem {fns : RegFns} {df : List Row} {rows : List TrendRow}
    {row : TrendRow} (h : calculate_slopes fns df = .ok rows) (hr : row ∈ rows) :
    ∃ k ∈ dfKeys df, slopeRowOfGroup fns k (groupOf df k) = .ok (some row) := by
  unfold calculate_slopes at h
  cases hm : mapExcept (fun k => slopeRowOfGroup fns k (groupOf df k)) (dfKeys df) with
  | error e => rw [hm] at h; cases h
  | ok os =>
    rw [hm] at h
    cases h
    have hmem : some row ∈ os := by
      have := hr
      unfold List.reduceOption at this
      obtain ⟨o, ho, hoe⟩ := List.mem_filterMap.mp this
      cases o with
      | none => cases hoe
      | some r => cases hoe; exact ho
    exact forall₂_mem_right (mapExcept_ok_forall hm) hmem

/-- A successful per-group result is exactly the assembled output row for
some regression result. -/
theorem slopeRowOfGroup_ok_some {fns : RegFns} {k : List Char × MeasureType × List Char}
    {g : List Row} {row : TrendRow} (h : slopeRowOfGroup fns k g = .ok (some row)) :
    ∃ lr, row = trendRowOf k g lr := by
  unfold slopeRowOfGroup at h
  split at h
  · cases h
  · split at h
    · cases h
    · split at h
      · cases h
      · rename_i lr heq
        cases h
        exact ⟨lr, rfl⟩

/-- The length of the masked timepoint column equals the number of rows
of the (unsorted) group whose value is non-NaN. -/
theorem tpsOf_length (g : List Row) :
    (tpsOf g).length = (g.filter (fun r => r.value.isSome)).length := by
  unfold tpsOf maskedOf sortByOrdinal
  rw [List.length_map]
  exact ((List.perm_insertionSort rowLe g).filter _).length_eq

/-! ## Claims about the Trend Estimator -/

/-- Claim C1 (code behaviour at the failing input): for a group whose two
surviving points share the ordinal 1, `calculate_slopes` does not emit a
NaN row — it propagates the ValueError that `scipy.stats.linregress`
raises for all-identical x values, contradicting the spec's no-crash
invariant. -/
theorem c1_identical_ordinals_raise :
    calculate_slopes fns0 dfIdenticalOrds = .error .identicalX := by
  simp +decide [calculate_slopes, dfKeys, groupOf, rowKey, mapExcept, slopeRowOfGroup,
    valsOf, tpsOf, maskedOf, sortByOrdinal, List.insertionSort, List.orderedInsert,
    rowLe, naLastLe, linregress, allEqualOpt, Except.map, dfIdenticalOrds, mkRow]

/-- Claim C2, counterexample: a group with valid points at ordinals 1 and
2 plus a third point carrying a valid value but a null ordinal yields a
TrendResult with n_timepoints = 3, while the number of points with both a
valid value and a non-null ordinal is 2 — the mask drops only NaN values,
never null ordinals. -/
theorem c2_value_mask_counterexample :
    calculate_slopes fns0 dfNullOrd = .ok [trendRowNullOrd]
    ∧ trendRowNullOrd.n_timepoints = 3
    ∧ bothValidCount dfNullOrd (['s'], .volume, ['h']) = 2 ∧ (3 : ℕ) ≠ 2 := by
  refine ⟨?_, by decide,
    by simp +decide [bothValidCount, groupOf, rowKey, dfNullOrd, mkRow], by decide⟩
  simp +decide [calculate_slopes, dfKeys, groupOf, rowKey, mapExcept, slopeRowOfGroup,
    valsOf, tpsOf, maskedOf, trendRowOf, trendRowNullOrd, sortByOrdinal, List.insertionSort,
    List.orderedInsert, rowLe, naLastLe, linregress, allEqualOpt, qmean,
    Except.map, List.reduceOption, dfNullOrd, mkRow]
  norm_num

/-- Claim C2 as amended: before fitting, exactly the entries whose value
is null/NaN are dropped (entries with a null ordinal but a valid value
are kept), and `n_timepoints` in every emitted TrendResult equals the
number of points of that group with a non-null, non-NaN value, regardless
of their ordinals. -/
theorem c2_value_mask_amended (fns : RegFns) (df : List Row) (rows : List TrendRow)
    (row : TrendRow) (h : calculate_slopes fns df = .ok rows) (hr : row ∈ rows) :
    row.n_timepoints =
      ((groupOf df (row.base_subject, row.measure_type, row.structure')).filter
        (fun r => r.value.isSome)).length := by
  obtain ⟨k, hk, hok⟩ := calculate_slopes_mem h hr
  obtain ⟨lr, rfl⟩ := slopeRowOfGroup_ok_some hok
  have hkey : ((trendRowOf k (groupOf df k) lr).base_subject,
      (trendRowOf k (groupOf df k) lr).measure_type,
      (trendRowOf k (groupOf df k) lr).structure') = k := by
    obtain ⟨a, b, c⟩ := k
    rfl
  rw [hkey]
  exact tpsOf_length _

/-- Witness for the amended claim C2: in the counterexample dataframe the
emitted row's n_timepoints (3) equals the number of valid-VALUE points of
its group. -/
theorem c2_value_mask_witness :
    trendRowNullOrd.n_timepoints =
      ((groupOf dfNullOrd (trendRowNullOrd.base_subject, trendRowNullOrd.measure_type,
        trendRowNullOrd.structure')).filter (fun r => r.value.isSome)).length :=
  c2_value_mask_amended fns0 dfNullOrd [trendRowNullOrd] trendRowNullOrd
    (by
      simp +decide [calculate_slopes, dfKeys, groupOf, rowKey, mapExcept, slopeRowOfGroup,
        valsOf, tpsOf, maskedOf, trendRowOf, trendRowNullOrd, sortByOrdinal,
        List.insertionSort, List.orderedInsert, rowLe, naLastLe, linregress, allEqualOpt,
        qmean, Except.map, List.reduceOption, dfNullOrd, mkRow]
      norm_num)
    (List.mem_singleton.mpr rfl)

/-- Claim C9, counterexample: a group whose baseline value is 0 but whose
two surviving points share one ordinal makes `calculate_slopes` raise
(the degenerate-fit ValueError), so "a group with baseline 0 yields a
TrendResult, not an exception" fails as universally stated. -/
theorem c9_zero_baseline_counterexample :
    calculate_slopes fns0 dfZeroBaselineDup = .error .identicalX := by
  simp +decide [calculate_slopes, dfKeys, groupOf, rowKey, mapExcept, slopeRowOfGroup,
    valsOf, tpsOf, maskedOf, sortByOrdinal, List.insertionSort, List.orderedInsert,
    rowLe, naLastLe, linregress, allEqualOpt, Except.map, dfZeroBaselineDup, mkRow]

/-- Claim C9 as amended: whenever `calculate_slopes` returns (the
degenerate-ordinal exception aside), every emitted TrendResult satisfies
absolute_change = final_value - baseline_value, and a zero baseline gives
percent_change = null — never an exception from the division and never
infinity. -/
theorem c9_zero_baseline_amended (fns : RegFns) (df : List Row) (rows : List TrendRow)
    (row : TrendRow) (h : calculate_slopes fns df = .ok rows) (hr : row ∈ rows) :
    row.absolute_change = row.final_value - row.baseline_value
    ∧ (row.baseline_value = 0 → row.percent_change = none) := by
  obtain ⟨k, hk, hok⟩ := calculate_slopes_mem h hr
  obtain ⟨lr, rfl⟩ := slopeRowOfGroup_ok_some hok
  refine ⟨rfl, fun h0 => ?_⟩
  show (if (valsOf (groupOf df k)).headD 0 ≠ 0 then
    some (((valsOf (groupOf df k)).getLastD 0 - (valsOf (groupOf df k)).headD 0) /
      (valsOf (groupOf df k)).headD 0 * 100) else none) = none
  exact if_neg (not_not_intro h0)

/-- Witness for the amended claim C9: the group `dfZeroFrom` (values 0
then 5 at ordinals 1 and 2) yields a row with zero baseline, null
percent_change and absolute_change = final - baseline. -/
theorem c9_zero_baseline_witness :
    trendRowZeroFrom.absolute_change =
      trendRowZeroFrom.final_value - trendRowZeroFrom.baseline_value
    ∧ (trendRowZeroFrom.baseline_value = 0 → trendRowZeroFrom.percent_change = none) :=
  c9_zero_baseline_amended fns0 dfZeroFrom [trendRowZeroFrom] trendRowZeroFrom
    (by
      simp +decide [calculate_slopes, dfKeys, groupOf, rowKey, mapExcept, slopeRowOfGroup,
        valsOf, tpsOf, maskedOf, trendRowOf, trendRowZeroFrom, sortByOrdinal,
        List.insertionSort, List.orderedInsert, rowLe, naLastLe, linregress, allEqualOpt,
        qmean, Except.map, List.reduceOption, dfZeroFrom, mkRow]
      norm_num)
    (List.mem_singleton.mpr rfl)

/-! ## Claims about the Delta Calculator -/

/-- Claim C8: the group at ordinals [1,2,3] with values [10,20,15] yields
exactly the two DeltaResults (1 to 2: +10, +100 percent) and (2 to 3: -5,
-25 percent). -/
theorem c8_adjacency_completeness :
    calculate_percent_change dfDeltas = [deltaRow12, deltaRow23] := by
  simp +decide [calculate_percent_change, dfKeys, groupOf, rowKey, deltaRowsOfGroup,
    sortByOrdinal, List.insertionSort, List.orderedInsert, rowLe, naLastLe,
    deltaRowOfPair, deltaRow12, deltaRow23, dfDeltas, mkRow]
  norm_num

/-- Claim C4, counterexample: in `dfZeroFrom` the sorted series has the
adjacent pair (0, 5) with both endpoint values non-null and from-value
exactly zero, yet `calculate_percent_change` emits NO row at all — the
row is omitted, not emitted with a null percent_change (the DeltaResult
percent_change column cannot even hold a null: rows are only appended
under `value1 != 0`). -/
theorem c4_zero_from_counterexample :
    (sortByOrdinal dfZeroFrom).map (fun r => r.value) = [some 0, some 5]
    ∧ calculate_percent_change dfZeroFrom = [] := by
  constructor
  · simp +decide [sortByOrdinal, List.insertionSort, List.orderedInsert, rowLe,
      naLastLe, dfZeroFrom, mkRow]
  · simp +decide [calculate_percent_change, dfKeys, groupOf, rowKey, deltaRowsOfGroup,
      sortByOrdinal, List.insertionSort, List.orderedInsert, rowLe, naLastLe,
      deltaRowOfPair, dfZeroFrom, mkRow]

/-- Claim C4 as amended: the Delta Calculator handles a zero "from" value
by omitting the pair entirely — no exception and no infinity because no
division happens: every emitted DeltaResult has value_from nonzero, with
percent_change and absolute_change computed from its endpoint values. -/
theorem c4_zero_from_amended (df : List Row) (row : DeltaRow)
    (hr : row ∈ calculate_percent_change df) :
    row.value_from ≠ 0
    ∧ row.percent_change = (row.value_to - row.value_from) / row.value_from * 100
    ∧ row.absolute_change = row.value_to - row.value_from := by
  unfold calculate_percent_change at hr
  obtain ⟨k, hk, hrow⟩ := List.mem_flatMap.mp hr
  unfold deltaRowsOfGroup at hrow
  obtain ⟨⟨r1, r2⟩, hpair, hsome⟩ := List.mem_filterMap.mp hrow
  unfold deltaRowOfPair at hsome
  cases h1 : r1.value with
  | none => rw [h1] at hsome; simp at hsome
  | some v1 =>
    cases h2 : r2.value with
    | none => rw [h1, h2] at hsome; simp at hsome
    | some v2 =>
      rw [h1, h2] at hsome
      by_cases hv : v1 = 0
      · simp [hv] at hsome
      · simp only [ne_eq, hv, not_false_eq_true, if_true, Option.some.injEq] at hsome
        subst hsome
        exact ⟨hv, rfl, rfl⟩

/-- Witness for the amended claim C4 at the first row emitted for
`dfDeltas`. -/
theorem c4_zero_from_witness :
    deltaRow12.value_from ≠ 0
    ∧ deltaRow12.percent_change =
      (deltaRow12.value_to - deltaRow12.value_from) / deltaRow12.value_from * 100
    ∧ deltaRow12.absolute_change = deltaRow12.value_to - deltaRow12.value_from :=
  c4_zero_from_amended dfDeltas deltaRow12
    (by
      have h : calculate_percent_change dfDeltas = [deltaRow12, deltaRow23] := by
        simp +decide [calculate_percent_change, dfKeys, groupOf, rowKey, deltaRowsOfGroup,
          sortByOrdinal, List.insertionSort, List.orderedInsert, rowLe, naLastLe,
          deltaRowOfPair, deltaRow12, deltaRow23, dfDeltas, mkRow]
        norm_num
      rw [h]
      exact List.mem_cons_self _ _)

/-! ## Two-point exactness (claim C7) -/

/-- Exact value of `linregress` at two points with distinct x values, in
exact arithmetic: the fitted line interpolates, the p-value and standard
error take scipy's hard-coded n = 2 values, and r_squared is 1 unless the
two y values coincide, in which case scipy's zero-variance convention
r = 0 makes it 0. -/
theorem linregress_two_point (fns : RegFns) (t1 t2 : ℤ) (v1 v2 : ℚ) (hne : t1 ≠ t2) :
    linregress fns [some t1, some t2] [v1, v2] = .ok
      { slope := some ((v2 - v1) / ((t2 : ℚ) - (t1 : ℚ)))
        intercept := some ((v1 + v2) / 2 -
          (v2 - v1) / ((t2 : ℚ) - (t1 : ℚ)) * (((t1 : ℚ) + (t2 : ℚ)) / 2))
        r_squared := some (if v1 = v2 then 0 else 1)
        p_value := some (if v1 = v2 then 1 else 0)
        std_err := some 0 } := by
  have ht : (t1 : ℚ) ≠ (t2 : ℚ) := by exact_mod_cast hne
  have htd : (t2 : ℚ) - (t1 : ℚ) ≠ 0 := sub_ne_zero.mpr (Ne.symm ht)
  unfold linregress
  rw [if_neg (by simp)]
  rw [if_neg (by simp [allEqualOpt, Ne.symm hne])]
  simp only [List.any_cons, List.any_nil, Option.isNone_some, Bool.or_false, Bool.or_self,
    List.length_cons, List.length_nil, qmean, List.filterMap_cons, List.filterMap_nil,
    Option.map_some, List.sum_cons, List.sum_nil, List.map_cons, List.map_nil,
    List.zipWith_cons_cons, List.zipWith_nil_right, List.headD_cons, List.getLastD_cons,
    ]
  norm_num
  have hxx : ((↑t1 - (↑t1 + ↑t2) / 2) ^ 2 + (↑t2 - (↑t1 + ↑t2) / 2) ^ 2 : ℚ) / 2 =
      ((t1 : ℚ) - t2) ^ 2 / 4 := by ring
  have hxy : (((↑t1 : ℚ) - (↑t1 + ↑t2) / 2) * (v1 - (v1 + v2) / 2) +
      (↑t2 - (↑t1 + ↑t2) / 2) * (v2 - (v1 + v2) / 2)) / 2 =
      ((t1 : ℚ) - t2) * (v1 - v2) / 4 := by ring
  have hyy : ((v1 - (v1 + v2) / 2) ^ 2 + (v2 - (v1 + v2) / 2) ^ 2 : ℚ) =
      (v1 - v2) ^ 2 / 2 := by ring
  have htd2 : ((t1 : ℚ) - t2) ≠ 0 := sub_ne_zero.mpr ht
  refine ⟨?_, Or.inl ?_, ?_⟩
  · rw [hxy, hxx]
    field_simp
    ring
  · rw [hxy, hxx]
    field_simp
    ring
  · by_cases hv : v1 = v2
    · rw [if_pos (by rw [hyy, hv]; ring), if_pos hv]
    · have hyy2 : ((v1 - (v1 + v2) / 2) ^ 2 + (v2 - (v1 + v2) / 2) ^ 2 : ℚ) / 2 =
          (v1 - v2) ^ 2 / 4 := by ring
      rw [if_neg (by
        rw [hyy]
        exact div_ne_zero (pow_ne_zero 2 (sub_ne_zero.mpr hv)) two_ne_zero),
        if_neg hv, hxy, hxx, hyy2]
      congr 1
      rw [div_eq_one_iff_eq (mul_ne_zero
        (div_ne_zero (pow_ne_zero 2 htd2) (by norm_num))
        (div_ne_zero (pow_ne_zero 2 (sub_ne_zero.mpr hv)) (by norm_num)))]
      ring

/-- Claim C7 as amended: for a group whose surviving points are exactly
(t1, v1), (t2, v2) with t1 distinct from t2 (in sorted order), the Trend
Estimator emits a row with slope = (v2-v1)/(t2-t1) and absolute_change =
v2 - v1; r_squared = 1.0 holds whenever v1 is distinct from v2, but for
v1 = v2 the library reports r = 0 and hence r_squared = 0 (zero variance
in y), not 1.0 as the claim universally states. -/
theorem c7_two_point_amended (fns : RegFns) (k : List Char × MeasureType × List Char)
    (g : List Row) (r1 r2 : Row) (t1 t2 : ℤ) (v1 v2 : ℚ)
    (hm : maskedOf g = [r1, r2])
    (h1t : r1.timepoint_num = some t1) (h1v : r1.value = some v1)
    (h2t : r2.timepoint_num = some t2) (h2v : r2.value = some v2)
    (hne : t1 ≠ t2) :
    ∃ row : TrendRow, slopeRowOfGroup fns k g = .ok (some row)
      ∧ row.slope = some ((v2 - v1) / ((t2 : ℚ) - (t1 : ℚ)))
      ∧ row.r_squared = some (if v1 = v2 then 0 else 1)
      ∧ row.absolute_change = v2 - v1 := by
  have htps : tpsOf g = [some t1, some t2] := by
    unfold tpsOf
    rw [hm]
    simp [h1t, h2t]
  have hvals : valsOf g = [v1, v2] := by
    unfold valsOf
    rw [hm]
    simp [h1v, h2v]
  have hglen : ¬ g.length < 2 := by
    have hl1 : (maskedOf g).length = 2 := by rw [hm]; rfl
    have hl2 : (maskedOf g).length ≤ g.length := by
      unfold maskedOf sortByOrdinal
      calc (List.filter (fun r => r.value.isSome) (List.insertionSort rowLe g)).length
          ≤ (List.insertionSort rowLe g).length := List.length_filter_le _ _
        _ = g.length := List.length_insertionSort _ _
    omega
  unfold slopeRowOfGroup
  rw [hvals, htps, if_neg hglen, if_neg (by simp),
    linregress_two_point fns t1 t2 v1 v2 hne]
  refine ⟨_, rfl, rfl, rfl, ?_⟩
  simp [trendRowOf, hvals]

/-- Witness for the amended claim C7 at the two points (1, 10), (2, 20):
slope 10, r_squared 1, absolute_change 10. -/
theorem c7_two_point_witness :
    ∃ row : TrendRow, slopeRowOfGroup fns0 (['s'], .volume, ['h']) dfPermA = .ok (some row)
      ∧ row.slope = some (((20 : ℚ) - 10) / ((2 : ℚ) - 1))
      ∧ row.r_squared = some (if (10 : ℚ) = 20 then 0 else 1)
      ∧ row.absolute_change = 20 - 10 :=
  c7_two_point_amended fns0 (['s'], .volume, ['h']) dfPermA
    (mkRow ['a'] (some 1) (some 10)) (mkRow ['b'] (some 2) (some 20))
    1 2 10 20 rfl rfl rfl rfl rfl (by decide)

/-! ## Determinism under permutation of the input (claim C3) -/

theorem rowLe_key_eq {a b : Row} (h1 : rowLe a b) (h2 : rowLe b a) :
    a.timepoint_num = b.timepoint_num := by
  unfold rowLe naLastLe at h1 h2
  rcases ha : a.timepoint_num with _ | x <;> rcases hb : b.timepoint_num with _ | y <;>
    rw [ha, hb] at h1 h2 <;> simp_all <;> omega

theorem sorted_nodup_key_unique :
    ∀ {l1 l2 : List Row}, l1.Perm l2 → l1.Sorted rowLe → l2.Sorted rowLe →
      (l1.map (fun r => r.timepoint_num)).Nodup → l1 = l2 := by
  intro l1
  induction l1 with
  | nil =>
    intro l2 hp _ _ _
    exact hp.nil_eq
  | cons a t ih =>
    intro l2 hp hs1 hs2 hnd
    cases l2 with
    | nil => exact absurd hp.symm.nil_eq (by simp)
    | cons b t2 =>
      have hab : a = b := by
        by_contra hne
        have hbmem : b ∈ t := by
          have : b ∈ a :: t := hp.mem_iff.mpr (List.mem_cons_self b t2)
          rcases List.mem_cons.mp this with h | h
          · exact absurd h.symm hne
          · exact h
        have hamem : a ∈ t2 := by
          have : a ∈ b :: t2 := hp.mem_iff.mp (List.mem_cons_self a t)
          rcases List.mem_cons.mp this with h | h
          · exact absurd h hne
          · exact h
        have hab_le : rowLe a b := List.rel_of_sorted_cons hs1 b hbmem
        have hba_le : rowLe b a := List.rel_of_sorted_cons hs2 a hamem
        have hk := rowLe_key_eq hab_le hba_le
        have : a.timepoint_num ∈ t.map (fun r => r.timepoint_num) :=
          List.mem_map.mpr ⟨b, hbmem, hk.symm⟩
        exact (List.nodup_cons.mp hnd).1 this
      subst hab
      have := ih hp.cons_inv hs1.of_cons hs2.of_cons (List.nodup_cons.mp hnd).2
      rw [this]

theorem insertionSort_eq_of_perm {g1 g2 : List Row} (h : g1.Perm g2)
    (hnd : (g1.map (fun r => r.timepoint_num)).Nodup) :
    sortByOrdinal g1 = sortByOrdinal g2 := by
  apply sorted_nodup_key_unique
  · exact (List.perm_insertionSort rowLe g1).trans
      (h.trans (List.perm_insertionSort rowLe g2).symm)
  · exact List.sorted_insertionSort rowLe g1
  · exact List.sorted_insertionSort rowLe g2
  · exact (((List.perm_insertionSort rowLe g1).map
      (fun r => r.timepoint_num)).nodup_iff).mpr hnd

theorem groupOf_perm {df1 df2 : List Row} (h : df1.Perm df2)
    (k : List Char × MeasureType × List Char) :
    (groupOf df1 k).Perm (groupOf df2 k) := h.filter _

theorem dfKeys_perm {df1 df2 : List Row} (h : df1.Perm df2) :
    (dfKeys df1).Perm (dfKeys df2) := (h.map rowKey).dedup

theorem groupOf_eq_nil_of_not_mem {df : List Row}
    {k : List Char × MeasureType × List Char} (hk : k ∉ dfKeys df) :
    groupOf df k = [] := by
  unfold groupOf
  rw [List.filter_eq_nil_iff]
  intro r hr hrk
  apply hk
  unfold dfKeys
  rw [List.mem_dedup]
  exact List.mem_map.mpr ⟨r, hr, by simpa using hrk⟩

theorem sortedGroup_eq {df1 df2 : List Row} (h : df1.Perm df2)
    (hd : distinctOrdinals df1) (k : List Char × MeasureType × List Char) :
    sortByOrdinal (groupOf df1 k) = sortByOrdinal (groupOf df2 k) := by
  by_cases hk : k ∈ dfKeys df1
  · exact insertionSort_eq_of_perm (groupOf_perm h k) (hd k hk)
  · rw [groupOf_eq_nil_of_not_mem hk,
      groupOf_eq_nil_of_not_mem (fun hk2 => hk ((dfKeys_perm h).mem_iff.mpr hk2))]

theorem forall₂_mem_left {α β : Type _} {R : α → β → Prop} :
    ∀ {l1 : List α} {l2 : List β}, List.Forall₂ R l1 l2 → ∀ {a}, a ∈ l1 →
      ∃ b ∈ l2, R a b := by
  intro l1 l2 h
  induction h with
  | nil => intro a ha; cases ha
  | cons hab _ ih =>
    intro a ha
    rcases List.mem_cons.mp ha with rfl | ha'
    · exact ⟨_, List.mem_cons_self _ _, hab⟩
    · obtain ⟨b, hb, hr⟩ := ih ha'
      exact ⟨b, List.mem_cons_of_mem _ hb, hr⟩

/-- The slopes output, one equation per run, under no exception: the
optional rows are exactly the per-key results. -/
theorem calculate_slopes_multiset_eq_of_perm (fns : RegFns) {df1 df2 : List Row}
    (h : df1.Perm df2) (hd : distinctOrdinals df1) :
    Except.map (fun rs : List TrendRow => (rs : Multiset TrendRow))
        (calculate_slopes fns df1) =
      Except.map (fun rs : List TrendRow => (rs : Multiset TrendRow))
        (calculate_slopes fns df2) := by
  have hfk : ∀ k, slopeRowOfGroup fns k (groupOf df1 k) =
      slopeRowOfGroup fns k (groupOf df2 k) := by
    intro k
    have h1 : (groupOf df1 k).length = (groupOf df2 k).length :=
      (groupOf_perm h k).length_eq
    have h2 : sortByOrdinal (groupOf df1 k) = sortByOrdinal (groupOf df2 k) :=
      sortedGroup_eq h hd k
    unfold slopeRowOfGroup trendRowOf valsOf tpsOf maskedOf
    rw [h1, h2]
  unfold calculate_slopes
  cases hm1 : mapExcept (fun k => slopeRowOfGroup fns k (groupOf df1 k)) (dfKeys df1) with
  | error e =>
    obtain ⟨k, hk, hke⟩ := mapExcept_error_mem hm1
    have he : e = .identicalX := slopeRowOfGroup_error hke
    have hk2 : k ∈ dfKeys df2 := (dfKeys_perm h).mem_iff.mp hk
    have hke2 : slopeRowOfGroup fns k (groupOf df2 k) = .error e := (hfk k) ▸ hke
    obtain ⟨e2, hm2⟩ := mapExcept_error_of_mem
      (fun k => slopeRowOfGroup fns k (groupOf df2 k)) hk2 ⟨e, hke2⟩
    have he2 : e2 = .identicalX := by
      obtain ⟨k2, hk2m, hke2⟩ := mapExcept_error_mem hm2
      exact slopeRowOfGroup_error hke2
    rw [hm2, he, he2]
  | ok os =>
    have hall1 : ∀ k ∈ dfKeys df1,
        slopeRowOfGroup fns k (groupOf df1 k) =
          .ok (match slopeRowOfGroup fns k (groupOf df1 k) with
            | .ok o => o
            | .error _ => none) := by
      intro k hk
      obtain ⟨o, -, ho⟩ := forall₂_mem_left (mapExcept_ok_forall hm1) hk
      rw [ho]
    have hm1' : mapExcept (fun k => slopeRowOfGroup fns k (groupOf df1 k)) (dfKeys df1) =
        .ok ((dfKeys df1).map (fun k =>
          match slopeRowOfGroup fns k (groupOf df1 k) with
          | .ok o => o
          | .error _ => none)) := mapExcept_eq_map hall1
    have hos : os = (dfKeys df1).map (fun k =>
        match slopeRowOfGroup fns k (groupOf df1 k) with
        | .ok o => o
        | .error _ => none) := by
      rw [hm1] at hm1'
      cases hm1'
      rfl
    have hall2 : ∀ k ∈ dfKeys df2,
        slopeRowOfGroup fns k (groupOf df2 k) =
          .ok (match slopeRowOfGroup fns k (groupOf df1 k) with
            | .ok o => o
            | .error _ => none) := by
      intro k hk
      rw [← hfk k]
      exact hall1 k ((dfKeys_perm h).mem_iff.mpr hk)
    have hm2 : mapExcept (fun k => slopeRowOfGroup fns k (groupOf df2 k)) (dfKeys df2) =
        .ok ((dfKeys df2).map (fun k =>
          match slopeRowOfGroup fns k (groupOf df1 k) with
          | .ok o => o
          | .error _ => none)) := mapExcept_eq_map hall2
    rw [hm2, hos]
    simp only [Except.map, List.reduceOption]
    congr 1
    rw [Multiset.coe_eq_coe]
    exact ((dfKeys_perm h).map _).filterMap _

theorem calculate_percent_change_perm {df1 df2 : List Row} (h : df1.Perm df2)
    (hd : distinctOrdinals df1) :
    (calculate_percent_change df1).Perm (calculate_percent_change df2) := by
  unfold calculate_percent_change
  have hf : (fun k => deltaRowsOfGroup k (groupOf df1 k)) =
      (fun k => deltaRowsOfGroup k (groupOf df2 k)) := by
    funext k
    unfold deltaRowsOfGroup
    rw [sortedGroup_eq h hd k]
  rw [hf]
  exact (dfKeys_perm h).flatMap_right _

/-- Claim C3, counterexample: two permutations of the same two records
sharing one ordinal (values 10 and 20 at ordinal 1) produce different
DeltaResult sets — the stable sort preserves the two different input
orders, swapping which record is the pair's "from" endpoint (+100 percent
in one run, -50 percent in the other), so order-independence fails in the
presence of duplicate ordinals. -/
theorem c3_determinism_counterexample :
    dfDupA.Perm dfDupB
    ∧ (calculate_percent_change dfDupA : Multiset DeltaRow)
      ≠ (calculate_percent_change dfDupB : Multiset DeltaRow) := by
  refine ⟨by decide, ?_⟩
  have hA : calculate_percent_change dfDupA =
      [{ base_subject := ['s'], measure_type := .volume, structure' := ['h'],
         timepoint_from := ['a'], timepoint_to := ['b'], tp_num_from := some 1,
         tp_num_to := some 1, value_from := 10, value_to := 20,
         absolute_change := 10, percent_change := 100 }] := by
    simp +decide [calculate_percent_change, dfKeys, groupOf, rowKey, deltaRowsOfGroup,
      sortByOrdinal, List.insertionSort, List.orderedInsert, rowLe, naLastLe,
      deltaRowOfPair, dfDupA, mkRow]
    norm_num
  have hB : calculate_percent_change dfDupB =
      [{ base_subject := ['s'], measure_type := .volume, structure' := ['h'],
         timepoint_from := ['b'], timepoint_to := ['a'], tp_num_from := some 1,
         tp_num_to := some 1, value_from := 20, value_to := 10,
         absolute_change := -10, percent_change := -50 }] := by
    simp +decide [calculate_percent_change, dfKeys, groupOf, rowKey, deltaRowsOfGroup,
      sortByOrdinal, List.insertionSort, List.orderedInsert, rowLe, naLastLe,
      deltaRowOfPair, dfDupB, mkRow]
    norm_num
  rw [hA, hB]
  intro hcontra
  rw [Multiset.coe_eq_coe] at hcontra
  have := List.perm_singleton.mp hcontra
  simp at this

/-- Claim C3 as amended: when within every group the timepoint ordinals
are pairwise distinct, the multiset of TrendResult rows (or the common
propagated exception) and the multiset of DeltaResult rows are invariant
under any permutation of the input records. -/
theorem c3_determinism_amended (fns : RegFns) (df1 df2 : List Row)
    (hperm : df1.Perm df2) (hd : distinctOrdinals df1) :
    Except.map (fun rs : List TrendRow => (rs : Multiset TrendRow)) (calculate_slopes fns df1)
      = Except.map (fun rs : List TrendRow => (rs : Multiset TrendRow)) (calculate_slopes fns df2)
    ∧ (calculate_percent_change df1 : Multiset DeltaRow)
      = (calculate_percent_change df2 : Multiset DeltaRow) :=
  ⟨calculate_slopes_multiset_eq_of_perm fns hperm hd,
   Multiset.coe_eq_coe.mpr (calculate_percent_change_perm hperm hd)⟩

/-- Witness for the amended claim C3 at a two-record group with distinct
ordinals, in both input orders. -/
theorem c3_determinism_witness :
    Except.map (fun rs : List TrendRow => (rs : Multiset TrendRow)) (calculate_slopes fns0 dfPermA)
      = Except.map (fun rs : List TrendRow => (rs : Multiset TrendRow)) (calculate_slopes fns0 dfPermB)
    ∧ (calculate_percent_change dfPermA : Multiset DeltaRow)
      = (calculate_percent_change dfPermB : Multiset DeltaRow) :=
  c3_determinism_amended fns0 dfPermA dfPermB (by decide) (by decide)

/-- Claim C7, counterexample: a group with exactly two valid points
(1, 5), (2, 5) — distinct ordinals, equal values — yields a TrendResult
with r_squared = 0, not 1.0: scipy sets r = 0 whenever the y variance is
zero. -/
theorem c7_two_point_counterexample :
    calculate_slopes fns0 dfFlat = .ok
      [{ base_subject := ['s'], measure_type := .volume, structure' := ['h'],
         n_timepoints := 2, baseline_value := 5, final_value := 5,
         slope := some 0, intercept := some 5, r_squared := some 0,
         p_value := some 1, std_error := some 0,
         absolute_change := 0, percent_change := some 0, timepoint_span := some 1 }]
    ∧ (some (0 : ℚ)) ≠ some (1 : ℚ) := by
  refine ⟨?_, by decide⟩
  simp +decide [calculate_slopes, dfKeys, groupOf, rowKey, mapExcept, slopeRowOfGroup,
    valsOf, tpsOf, maskedOf, trendRowOf, sortByOrdinal, List.insertionSort,
    List.orderedInsert, rowLe, naLastLe, linregress, allEqualOpt, qmean,
    Except.map, List.reduceOption, dfFlat, mkRow]
